import Mathlib

/-
  Verification of the request lifecycle orchestrator in
  src/lib/httpClient/httpClient.ts.

  Shallow embedding conventions:
  - JavaScript strings are lists of Unicode code points; the JS string
    length property counts UTF-16 code units, which we model with
    jsLength, and the UTF-8 byte length (the transport encoding used by
    req.end) with utf8ByteLength.
  - Buffers are lists of octets.
  - RequestOptions is a record with one representative extra transport
    option (timeout); an absent field models an absent JS property, so
    object spread is field-wise right-biased choice.
  - The node http request object and its event wiring are modelled by an
    explicit state (St) threaded over a list of transport signals
    (TSignal); each once-listener registered by request is a guarded
    transition (stepSig).  The telemetry EventEmitter is a Sink: absent,
    or a listener function that may throw on a given event kind.
-/

/-- JavaScript strings, modelled as their sequence of Unicode code points. -/
abbrev JSStr := List Nat

/-- Number of UTF-16 code units a code point occupies (what the JS string
length property counts). -/
def cpUtf16Units (c : Nat) : Nat :=
  if c < 0x10000 then 1 else 2

/-- The JS string length property: total UTF-16 code units. -/
def jsLength (s : JSStr) : Nat :=
  (s.map cpUtf16Units).sum

/-- Number of bytes a code point occupies in UTF-8, the encoding node uses
when writing a string body to the wire. -/
def cpUtf8Bytes (c : Nat) : Nat :=
  if c < 0x80 then 1 else if c < 0x800 then 2 else if c < 0x10000 then 3 else 4

/-- UTF-8 byte length of a JS string. -/
def utf8ByteLength (s : JSStr) : Nat :=
  (s.map cpUtf8Bytes).sum

/-- Method enum from src/lib/httpClient/types.ts (declared there; the three
members used by the client are Get, Post and Delete). -/
inductive Method
  | Get
  | Post
  | Delete
deriving DecidableEq

/-- A header value: caller supplied headers are strings, the derived
content-length is a number. -/
inductive HVal
  | str (s : String)
  | num (n : Nat)
deriving DecidableEq

/-- A JS header object: ordered keys to values. -/
abbrev Headers := List (String × HVal)

/-- JS object update as performed by an object spread with one extra key:
an existing key keeps its position and gets the new value, a new key is
appended. -/
def objSet : Headers → String → HVal → Headers
  | [], k, v => [(k, v)]
  | (k', v') :: t, k, v =>
      if k' = k then (k, v) :: t else (k', v') :: objSet t k v

/-- Key lookup on a JS header object. -/
def objGet : Headers → String → Option HVal
  | [], _ => none
  | (k', v') :: t, k => if k' = k then some v' else objGet t k

/-- RequestOptions from the node http module, restricted to the fields the
client reads or writes, plus one representative opaque transport option
(timeout).  A none field models an absent property. -/
structure RequestOptions where
  method : Option Method := none
  headers : Option Headers := none
  timeout : Option Nat := none
deriving DecidableEq

/-- The Consumable argument of HttpClient.request as it can actually arrive
at runtime: absent (undefined), a Buffer, a string, a Readable stream, or
any other value.  The invalid constructor keeps the one property of an
unrecognized value the code inspects, its truthiness. -/
inductive Body
  | absent
  | bytes (b : List Nat)
  | text (s : JSStr)
  | stream
  | invalid (truthyVal : Bool)
deriving DecidableEq

/-- isConsumable from httpClient.ts: Buffer.isBuffer, instanceof Readable,
or typeof string. -/
def isConsumable : Body → Bool
  | .bytes _ => true
  | .text _ => true
  | .stream => true
  | _ => false

/-- JS truthiness of a body value: undefined is falsy, a Buffer or a stream
object is truthy, a string is truthy iff nonempty, and an unrecognized
value carries its own truthiness. -/
def truthy : Body → Bool
  | .absent => false
  | .bytes _ => true
  | .text s => !s.isEmpty
  | .stream => true
  | .invalid t => t

/-- The instanceof Readable test used to pick the body hand-off branch. -/
def isStreamBody : Body → Bool
  | .stream => true
  | _ => false

/-- getContentLength from httpClient.ts: Buffer.byteLength for a Buffer
(its byte count), the length property for a string (UTF-16 code units),
undefined otherwise. -/
def getContentLength : Body → Option Nat
  | .bytes b => some b.length
  | .text s => some (jsLength s)
  | _ => none

/-- The content-length merge performed inside request: when a length was
derived (the NaN test in the source is vacuous, NaN is never strictly
equal to anything), headers becomes a spread of the existing headers with
content-length bound to the derived number; otherwise the options are left
alone. -/
def applyContentLength (data : Body) (reqOpts : RequestOptions) : RequestOptions :=
  match getContentLength data with
  | some n =>
      { reqOpts with
        headers := some (objSet (reqOpts.headers.getD []) "content-length" (.num n)) }
  | none => reqOpts

/-- combineOpts from httpClient.ts: a spread of the base options, then the
per-call options, then the literal method. -/
def combineOpts (base : Option RequestOptions) (m : Method)
    (reqOpts : Option RequestOptions) : RequestOptions :=
  let b := base.getD {}
  let r := reqOpts.getD {}
  { method := some m
    headers := r.headers.orElse fun _ => b.headers
    timeout := r.timeout.orElse fun _ => b.timeout }

/-- A base URL string together with the protocol the WHATWG URL parser
extracts from it; we embed only the parse result the constructor reads. -/
structure URLString where
  raw : String
  protocol : String
deriving DecidableEq

/-- The HttpClient instance state: the stored base URL and base options. -/
structure HttpClient where
  baseUrl : URLString
  baseReqOpts : Option RequestOptions
deriving DecidableEq

/-- The HttpClient constructor: reject any protocol other than http:,
otherwise store both arguments unchanged. -/
def HttpClient.make (baseUrl : URLString) (baseReqOpts : Option RequestOptions) :
    Except String HttpClient :=
  if baseUrl.protocol = "http:" then
    .ok { baseUrl := baseUrl, baseReqOpts := baseReqOpts }
  else
    .error ("only http protocol is supported, got " ++ baseUrl.protocol)

/-- Telemetry event kinds, from the EventType enum in
src/lib/httpClient/telemetry.ts as used by httpClient.ts; RequestError
carries the error code the TelemetryEvent wraps. -/
inductive Ev
  | requestStreamInitialised
  | socketObtained
  | connectionEstablished
  | responseStreamReceived
  | requestStreamEnded
  | requestError (code : String)
deriving DecidableEq

/-- Signals produced by the transport at runtime: req emits socket, the
socket emits connect, req emits response or error, and a stream body can
emit its own error. -/
inductive TSignal
  | socket
  | connect
  | response (r : Nat)
  | error (code : String)
  | dataError (code : String)
deriving DecidableEq

/-- The errors a request can settle with: the synchronous TypeError for an
unrecognized body, or an error carrying a transport or stream error code. -/
inductive ReqError
  | invalidBodyType
  | transport (code : String)
deriving DecidableEq

/-- The settled value of the promise returned by request. -/
inductive Outcome
  | success (r : Nat)
  | failure (e : ReqError)
deriving DecidableEq

/-- The optional telemetry EventEmitter: absent, or a set of listeners
modelled as a single function telling, per event, whether the listener
throws when invoked with it. -/
abbrev Sink := Option (Ev → Bool)

/-- A sink that never throws (or is absent). -/
def SinkOK : Sink → Prop
  | none => True
  | some f => ∀ e, f e = false

/-- The mutable state the listener wiring of request maintains: the events
delivered to the telemetry emitter so far, which once-listeners already
fired (socketDone, connectDone, responseDone, errorDone, dataErrDone),
whether the connect listener is currently attached, whether the request
was destroyed and with which cause, and the promise latch. -/
structure St where
  trace : List Ev := []
  socketDone : Bool := false
  connectAttached : Bool := false
  connectDone : Bool := false
  responseDone : Bool := false
  errorDone : Bool := false
  dataErrDone : Bool := false
  destroyed : Bool := false
  destroyCause : Option (Option String) := none
  settled : Option Outcome := none
deriving DecidableEq

/-- Deliver one event to the telemetry emitter: with no emitter nothing
happens and control continues; with an emitter the event is recorded and
the boolean says whether control continues (false means the listener
threw). -/
def emit (sink : Sink) (e : Ev) (s : St) : St × Bool :=
  match sink with
  | none => (s, true)
  | some f => ({ s with trace := s.trace ++ [e] }, !f e)

/-- Body of the once socket listener: publish SocketObtained, then attach
the once connect listener to the obtained socket. -/
def onSocket (sink : Sink) (s : St) : St :=
  let s1 := { s with socketDone := true }
  let p := emit sink .socketObtained s1
  if p.2 then { p.1 with connectAttached := true } else p.1

/-- Body of the once connect listener: publish ConnectionEstablished. -/
def onConnect (sink : Sink) (s : St) : St :=
  let s1 := { s with connectDone := true, connectAttached := false }
  (emit sink .connectionEstablished s1).1

/-- Body of the once response listener: publish ResponseStreamReceived,
then resolve the promise (first settlement wins). -/
def onResponse (sink : Sink) (r : Nat) (s : St) : St :=
  let s1 := { s with responseDone := true }
  let p := emit sink .responseStreamReceived s1
  if p.2 then { p.1 with settled := p.1.settled.orElse fun _ => some (.success r) } else p.1

/-- Body of the once error listener: destroy the request (a no-op cause if
a destroy already happened), publish RequestError with the error, then
reject the promise (first settlement wins). -/
def onError (sink : Sink) (code : String) (s : St) : St :=
  let s1 := { s with
    errorDone := true
    destroyed := true
    destroyCause := s.destroyCause.orElse fun _ => some none }
  let p := emit sink (.requestError code) s1
  if p.2 then
    { p.1 with settled := p.1.settled.orElse fun _ => some (.failure (.transport code)) }
  else p.1

/-- One transport signal against the registered listeners.  After a
destroy the request emits no further events (per the node documentation
quoted in the source), so only the stream error listener, which lives on
the data source, can still consume its once slot; a live request
dispatches each signal to its once-guarded listener, and a stream error
destroys the request with the stream error as cause, which surfaces as the
request error event. -/
def stepSig (isStream : Bool) (sink : Sink) (s : St) (sig : TSignal) : St :=
  if s.destroyed then
    match sig with
    | .dataError _ =>
        if isStream && !s.dataErrDone then { s with dataErrDone := true } else s
    | _ => s
  else
    match sig with
    | .socket => if s.socketDone then s else onSocket sink s
    | .connect => if s.connectAttached then onConnect sink s else s
    | .response r => if s.responseDone then s else onResponse sink r s
    | .error code => if s.errorDone then s else onError sink code s
    | .dataError code =>
        if isStream && !s.dataErrDone then
          let s1 := { s with
            dataErrDone := true
            destroyed := true
            destroyCause := some (some code) }
          if s1.errorDone then s1 else onError sink code s1
        else s

/-- What a call to request produces: whether a transport connection was
opened, whether the call threw synchronously (only a throwing telemetry
listener can cause that), the effective options after the content-length
merge, and the final listener state. -/
structure RunResult where
  opened : Bool
  threw : Bool
  finalOpts : RequestOptions
  st : St
deriving DecidableEq

/-- HttpClient.request: reject synchronously on a truthy unrecognized
body; otherwise merge the derived content-length, open the connection,
publish RequestStreamInitialised, register the listeners and hand off the
body, publish RequestStreamEnded, and then let the transport signals drive
the listeners.  Both synchronous events precede every transport signal
because the node event loop only delivers I/O events after the call
returns. -/
def requestRun (reqOpts : RequestOptions) (data : Body) (sink : Sink)
    (sigs : List TSignal) : RunResult :=
  if truthy data && !isConsumable data then
    { opened := false, threw := false, finalOpts := reqOpts
      st := { settled := some (.failure .invalidBodyType) } }
  else
    let opts := applyContentLength data reqOpts
    let p1 := emit sink .requestStreamInitialised {}
    if !p1.2 then { opened := true, threw := true, finalOpts := opts, st := p1.1 }
    else
      let p2 := emit sink .requestStreamEnded p1.1
      if !p2.2 then { opened := true, threw := true, finalOpts := opts, st := p2.1 }
      else
        { opened := true, threw := false, finalOpts := opts
          st := sigs.foldl (stepSig (isStreamBody data) sink) p2.1 }

/-- The get wrapper: fix the Get method, no body, forward to request. -/
def HttpClient.getRun (c : HttpClient) (reqOpts : Option RequestOptions)
    (sink : Sink) (sigs : List TSignal) : RunResult :=
  requestRun (combineOpts c.baseReqOpts .Get reqOpts) .absent sink sigs

/-- The post wrapper: fix the Post method, forward the body to request. -/
def HttpClient.postRun (c : HttpClient) (reqOpts : Option RequestOptions)
    (data : Body) (sink : Sink) (sigs : List TSignal) : RunResult :=
  requestRun (combineOpts c.baseReqOpts .Post reqOpts) data sink sigs

/-- The delete wrapper: fix the Delete method, no body, forward to request. -/
def HttpClient.deleteRun (c : HttpClient) (reqOpts : Option RequestOptions)
    (sink : Sink) (sigs : List TSignal) : RunResult :=
  requestRun (combineOpts c.baseReqOpts .Delete reqOpts) .absent sink sigs

/-- Outcome a single signal forces, if any; follows the reading of the
resolution sentence of the spec. -/
def specTerminalOutcome (isStream : Bool) : TSignal → Option Outcome
  | .response r => some (.success r)
  | .error code => some (.failure (.transport code))
  | .dataError code => if isStream then some (.failure (.transport code)) else none
  | _ => none

/-- First terminal signal wins: the outcome the spec assigns to a whole
signal sequence. -/
def specFirstTerminal (isStream : Bool) : List TSignal → Option Outcome
  | [] => none
  | sig :: rest => (specTerminalOutcome isStream sig).orElse fun _ =>
      specFirstTerminal isStream rest

/-- The outcome the spec assigns to a call: an immediate InvalidBodyType
failure for a truthy unrecognized body, otherwise the first terminal
transport signal decides. -/
def specExpectedOutcome (data : Body) (sigs : List TSignal) : Option Outcome :=
  if truthy data && !isConsumable data then some (.failure .invalidBodyType)
  else specFirstTerminal (isStreamBody data) sigs

/-- The transport collaborator contract: the socket, connect and response
signals occur in stage order and at most once each (a request without a
socket never connects, one without a connect never gets a response), and
the error and stream error signals occur at most once each.  The three
stage flags are the stage reached so far and whether an error or stream
error already occurred. -/
def wfFrom : Nat → Bool → Bool → List TSignal → Bool
  | _, _, _, [] => true
  | st, er, de, sig :: rest =>
    match sig with
    | .socket => st == 0 && wfFrom 1 er de rest
    | .connect => st == 1 && wfFrom 2 er de rest
    | .response _ => st == 2 && wfFrom 3 er de rest
    | .error _ => !er && wfFrom st true de rest
    | .dataError _ => !de && wfFrom st er true rest

/-- A signal list the transport collaborator can actually produce. -/
def wfSignals (sigs : List TSignal) : Bool :=
  wfFrom 0 false false sigs

/-- The stage events published once the transport has reached stage st. -/
def specStageTrace : Nat → List Ev
  | 0 => []
  | 1 => [.socketObtained]
  | 2 => [.socketObtained, .connectionEstablished]
  | _ => [.socketObtained, .connectionEstablished, .responseStreamReceived]

/-- Listener state of a live request that has delivered exactly the events
of stage st after the two synchronous events pre. -/
def InvA (pre : List Ev) (st : Nat) (s : St) : Prop :=
  st ≤ 3 ∧
  s.trace = pre ++ specStageTrace st ∧
  s.socketDone = decide (1 ≤ st) ∧
  s.connectAttached = decide (st = 1) ∧
  s.connectDone = decide (2 ≤ st) ∧
  s.responseDone = decide (3 ≤ st) ∧
  s.errorDone = false ∧
  s.destroyed = false ∧
  s.dataErrDone = false

/-- Listener state of a request destroyed after failing at stage st: the
request error event is the last event ever delivered. -/
def InvB (pre : List Ev) (s : St) : Prop :=
  ∃ st code, st ≤ 3 ∧
    s.trace = pre ++ specStageTrace st ++ [.requestError code] ∧
    s.destroyed = true

/-- Forget the delivered events, keeping every control field. -/
def eraseTr (s : St) : St :=
  { s with trace := [] }

theorem objGet_objSet (h : Headers) (k : String) (v : HVal) :
    objGet (objSet h k v) k = some v := by
  induction h with
  | nil => simp [objSet, objGet]
  | cons p t ih =>
    obtain ⟨k', v'⟩ := p
    by_cases hk : k' = k
    · simp [objSet, objGet, hk]
    · simp [objSet, objGet, hk, ih]

theorem applyContentLength_method (d : Body) (o : RequestOptions) :
    (applyContentLength d o).method = o.method := by
  unfold applyContentLength
  split <;> rfl

theorem applyContentLength_timeout (d : Body) (o : RequestOptions) :
    (applyContentLength d o).timeout = o.timeout := by
  unfold applyContentLength
  split <;> rfl

theorem requestRun_finalOpts (o : RequestOptions) (d : Body) (sk : Sink)
    (sg : List TSignal) :
    (requestRun o d sk sg).finalOpts =
      if truthy d && !isConsumable d then o else applyContentLength d o := by
  unfold requestRun
  split
  · rfl
  · dsimp only
    split
    · rfl
    · split <;> rfl

theorem emit_snd_of_sinkOK (sk : Sink) (hok : SinkOK sk) (e : Ev) (s : St) :
    (emit sk e s).2 = true := by
  cases sk with
  | none => rfl
  | some f => simpa [emit] using hok e

theorem emit_fst_settled (sk : Sink) (e : Ev) (s : St) :
    ((emit sk e s).1).settled = s.settled := by
  cases sk <;> rfl

theorem emit_fst_destroyed (sk : Sink) (e : Ev) (s : St) :
    ((emit sk e s).1).destroyed = s.destroyed := by
  cases sk <;> rfl

theorem emit_fst_responseDone (sk : Sink) (e : Ev) (s : St) :
    ((emit sk e s).1).responseDone = s.responseDone := by
  cases sk <;> rfl

theorem emit_fst_errorDone (sk : Sink) (e : Ev) (s : St) :
    ((emit sk e s).1).errorDone = s.errorDone := by
  cases sk <;> rfl

theorem emit_fst_dataErrDone (sk : Sink) (e : Ev) (s : St) :
    ((emit sk e s).1).dataErrDone = s.dataErrDone := by
  cases sk <;> rfl

theorem emit_fst_destroyCause (sk : Sink) (e : Ev) (s : St) :
    ((emit sk e s).1).destroyCause = s.destroyCause := by
  cases sk <;> rfl

theorem emit_fst_trace (sk : Sink) (e : Ev) (s : St) :
    ((emit sk e s).1).trace = if sk.isSome then s.trace ++ [e] else s.trace := by
  cases sk <;> rfl

theorem stepSig_settled_of_some (b : Bool) (sk : Sink) (s : St) (sig : TSignal)
    (o : Outcome) (h : s.settled = some o) :
    (stepSig b sk s sig).settled = some o := by
  obtain ⟨tr, sd, ca, cd, rd, ed, dd, ds, dc, se⟩ := s
  replace h : se = some o := h
  subst h
  cases sig <;> cases sk <;>
    simp only [stepSig, onSocket, onConnect, onResponse, onError, emit] <;>
    (repeat' split) <;>
    simp [Option.orElse]

theorem foldl_settled_of_some (b : Bool) (sk : Sink) (o : Outcome) :
    ∀ (sigs : List TSignal) (s : St), s.settled = some o →
      (sigs.foldl (stepSig b sk) s).settled = some o := by
  intro sigs
  induction sigs with
  | nil => intro s h; exact h
  | cons sig rest ih =>
    intro s h
    exact ih _ (stepSig_settled_of_some b sk s sig o h)


theorem stepSig_nonterminal_fields (b : Bool) (sk : Sink) (s : St) (sig : TSignal)
    (hsig : specTerminalOutcome b sig = none) (h2 : s.destroyed = false) :
    (stepSig b sk s sig).settled = s.settled ∧
    (stepSig b sk s sig).destroyed = false ∧
    (stepSig b sk s sig).responseDone = s.responseDone ∧
    (stepSig b sk s sig).errorDone = s.errorDone ∧
    (stepSig b sk s sig).dataErrDone = s.dataErrDone := by
  obtain ⟨tr, sd, ca, cd, rd, ed, dd, ds, dc, se⟩ := s
  replace h2 : ds = false := h2
  subst h2
  cases sig with
  | socket =>
    cases sk <;>
      simp only [stepSig, onSocket, emit] <;> (repeat' split) <;> simp
  | connect =>
    cases sk <;>
      simp only [stepSig, onConnect, emit] <;> (repeat' split) <;> simp
  | response r => simp [specTerminalOutcome] at hsig
  | error c => simp [specTerminalOutcome] at hsig
  | dataError c =>
    cases b with
    | true => simp [specTerminalOutcome] at hsig
    | false => simp [stepSig]

theorem stepSig_terminal_settles (b : Bool) (sk : Sink) (hok : SinkOK sk) (s : St)
    (sig : TSignal) (o : Outcome) (hsig : specTerminalOutcome b sig = some o)
    (h1 : s.settled = none) (h2 : s.destroyed = false)
    (h3 : s.responseDone = false) (h4 : s.errorDone = false)
    (h5 : s.dataErrDone = false) :
    (stepSig b sk s sig).settled = some o := by
  obtain ⟨tr, sd, ca, cd, rd, ed, dd, ds, dc, se⟩ := s
  replace h1 : se = none := h1
  replace h2 : ds = false := h2
  replace h3 : rd = false := h3
  replace h4 : ed = false := h4
  replace h5 : dd = false := h5
  subst h1; subst h2; subst h3; subst h4; subst h5
  cases sig with
  | socket => simp [specTerminalOutcome] at hsig
  | connect => simp [specTerminalOutcome] at hsig
  | response r =>
    replace hsig : Outcome.success r = o := by
      simpa [specTerminalOutcome] using hsig
    subst hsig
    cases sk with
    | none => simp [stepSig, onResponse, emit, Option.orElse]
    | some f =>
      have hf : ∀ e, f e = false := hok
      simp [stepSig, onResponse, emit, hf, Option.orElse]
  | error c =>
    replace hsig : Outcome.failure (ReqError.transport c) = o := by
      simpa [specTerminalOutcome] using hsig
    subst hsig
    cases sk with
    | none => simp [stepSig, onError, emit, Option.orElse]
    | some f =>
      have hf : ∀ e, f e = false := hok
      simp [stepSig, onError, emit, hf, Option.orElse]
  | dataError c =>
    cases b with
    | false => simp [specTerminalOutcome] at hsig
    | true =>
      replace hsig : Outcome.failure (ReqError.transport c) = o := by
        simpa [specTerminalOutcome] using hsig
      subst hsig
      cases sk with
      | none => simp [stepSig, onError, emit, Option.orElse]
      | some f =>
        have hf : ∀ e, f e = false := hok
        simp [stepSig, onError, emit, hf, Option.orElse]

theorem foldl_settled_eq_firstTerminal (b : Bool) (sk : Sink) (hok : SinkOK sk) :
    ∀ (sigs : List TSignal) (s : St),
      s.settled = none → s.destroyed = false → s.responseDone = false →
      s.errorDone = false → s.dataErrDone = false →
      (sigs.foldl (stepSig b sk) s).settled = specFirstTerminal b sigs := by
  intro sigs
  induction sigs with
  | nil => intro s h1 _ _ _ _; simpa [specFirstTerminal] using h1
  | cons sig rest ih =>
    intro s h1 h2 h3 h4 h5
    rw [List.foldl_cons]
    cases hterm : specTerminalOutcome b sig with
    | none =>
      obtain ⟨e1, e2, e3, e4, e5⟩ := stepSig_nonterminal_fields b sk s sig hterm h2
      rw [specFirstTerminal, hterm]
      simpa [Option.orElse] using
        ih (stepSig b sk s sig) (e1.trans h1) e2 (e3.trans h3) (e4.trans h4)
          (e5.trans h5)
    | some o =>
      have hset := stepSig_terminal_settles b sk hok s sig o hterm h1 h2 h3 h4 h5
      rw [specFirstTerminal, hterm]
      simpa [Option.orElse] using foldl_settled_of_some b sk o rest _ hset

theorem requestRun_ok (o : RequestOptions) (data : Body) (sk : Sink)
    (sigs : List TSignal) (hok : SinkOK sk)
    (hv : (truthy data && !isConsumable data) = false) :
    requestRun o data sk sigs =
      { opened := true, threw := false, finalOpts := applyContentLength data o
        st := sigs.foldl (stepSig (isStreamBody data) sk)
          { trace := if sk.isSome
              then [.requestStreamInitialised, .requestStreamEnded] else [] } } := by
  cases sk with
  | none => simp [requestRun, hv, emit]
  | some f =>
    have hf : ∀ e, f e = false := hok
    simp [requestRun, hv, emit, hf]

theorem stepSig_destroyed_fields (b : Bool) (sk : Sink) (s : St) (sig : TSignal)
    (h : s.destroyed = true) :
    (stepSig b sk s sig).trace = s.trace ∧
    (stepSig b sk s sig).settled = s.settled ∧
    (stepSig b sk s sig).destroyed = true ∧
    (stepSig b sk s sig).destroyCause = s.destroyCause := by
  obtain ⟨tr, sd, ca, cd, rd, ed, dd, ds, dc, se⟩ := s
  replace h : ds = true := h
  subst h
  cases sig with
  | socket => simp [stepSig]
  | connect => simp [stepSig]
  | response r => simp [stepSig]
  | error c => simp [stepSig]
  | dataError c => by_cases hb : (b && !dd) = true <;> simp [stepSig, hb]

theorem foldl_destroyed_fields (b : Bool) (sk : Sink) :
    ∀ (sigs : List TSignal) (s : St), s.destroyed = true →
      (sigs.foldl (stepSig b sk) s).trace = s.trace ∧
      (sigs.foldl (stepSig b sk) s).settled = s.settled ∧
      (sigs.foldl (stepSig b sk) s).destroyed = true ∧
      (sigs.foldl (stepSig b sk) s).destroyCause = s.destroyCause := by
  intro sigs
  induction sigs with
  | nil => intro s h; exact ⟨rfl, rfl, h, rfl⟩
  | cons sig rest ih =>
    intro s h
    obtain ⟨e1, e2, e3, e4⟩ := stepSig_destroyed_fields b sk s sig h
    rw [List.foldl_cons]
    obtain ⟨f1, f2, f3, f4⟩ := ih (stepSig b sk s sig) e3
    exact ⟨f1.trans e1, f2.trans e2, f3, f4.trans e4⟩

/-- Claim C1: for every call to request, the returned Outcome settles at
most once, and exactly one of success (resolving with the response handle
on the transport response signal) or failure (rejecting with the error on
the transport error signal) occurs: the settled value is exactly the one
the first terminal signal dictates (or the synchronous InvalidBodyType
failure), and appending further, duplicate or late, transport signals can
never change an already settled Outcome. -/
theorem claim_C1_exactly_once_settlement (reqOpts : RequestOptions) (data : Body)
    (sink : Sink) (sigs extra : List TSignal) (hok : SinkOK sink) :
    (requestRun reqOpts data sink sigs).st.settled = specExpectedOutcome data sigs ∧
    (∀ o, (requestRun reqOpts data sink sigs).st.settled = some o →
      (requestRun reqOpts data sink (sigs ++ extra)).st.settled = some o) := by
  constructor
  · by_cases hv : (truthy data && !isConsumable data) = true
    · simp [requestRun, specExpectedOutcome, hv]
    · have hv' : (truthy data && !isConsumable data) = false :=
        Bool.eq_false_iff.mpr hv
      rw [requestRun_ok reqOpts data sink sigs hok hv']
      simp only [specExpectedOutcome, hv', Bool.false_eq_true, if_false]
      exact foldl_settled_eq_firstTerminal (isStreamBody data) sink hok sigs _
        rfl rfl rfl rfl rfl
  · intro o h
    by_cases hv : (truthy data && !isConsumable data) = true
    · simp only [requestRun, hv, if_true] at h ⊢
      exact h
    · have hv' : (truthy data && !isConsumable data) = false :=
        Bool.eq_false_iff.mpr hv
      rw [requestRun_ok reqOpts data sink sigs hok hv'] at h
      rw [requestRun_ok reqOpts data sink (sigs ++ extra) hok hv']
      simp only at h ⊢
      rw [List.foldl_append]
      exact foldl_settled_of_some (isStreamBody data) sink o extra _ h

/-- Witness for C1 at a concrete input: a response followed by a late
error signal settles with the response, and the late signal does not
change the settled value. -/
theorem claim_C1_exactly_once_settlement_witness :
    (requestRun {} .absent (some fun _ => false) [.response 5]).st.settled
        = some (.success 5) ∧
    (requestRun {} .absent (some fun _ => false)
        ([.response 5] ++ [.error "ECONNRESET"])).st.settled = some (.success 5) := by
  have h := claim_C1_exactly_once_settlement {} .absent (some fun _ => false)
    [.response 5] [.error "ECONNRESET"] (fun _ => rfl)
  have h1 : (requestRun {} .absent (some fun _ => false) [.response 5]).st.settled
      = some (.success 5) := by
    rw [h.1]; decide
  exact ⟨h1, h.2 _ h1⟩

/-- Counterexample to claim C5 as stated: when the transport reports a
name-resolution failure before assigning a channel, the observed telemetry
sequence is not RequestInitiated followed immediately by RequestFailed;
the body hand-off event (RequestStreamEnded) was already published
synchronously in between, because it is emitted before any transport
signal can arrive. -/
theorem claim_C5_counterexample :
    (requestRun {} .absent (some fun _ => false) [.error "ENOTFOUND"]).st.trace
        = [.requestStreamInitialised, .requestStreamEnded, .requestError "ENOTFOUND"] ∧
    (requestRun {} .absent (some fun _ => false) [.error "ENOTFOUND"]).st.trace
        ≠ [.requestStreamInitialised, .requestError "ENOTFOUND"] ∧
    (requestRun {} .absent (some fun _ => false) [.error "ENOTFOUND"]).st.settled
        = some (.failure (.transport "ENOTFOUND")) := by
  decide

/-- Claim C5 as amended: for every request whose first transport signal is
an error (failure before a channel is assigned), the Outcome fails with
that error and the telemetry sequence observed is exactly
RequestInitiated, BodyTransmissionCompleted, RequestFailed;
SocketObtained, ConnectionEstablished and ResponseReceived are never
published, whatever signals may follow the failure. -/
theorem claim_C5_amended (reqOpts : RequestOptions) (data : Body)
    (f : Ev → Bool) (c : String) (rest : List TSignal)
    (hf : ∀ e, f e = false)
    (hv : (truthy data && !isConsumable data) = false) :
    (requestRun reqOpts data (some f) (.error c :: rest)).st.trace
        = [.requestStreamInitialised, .requestStreamEnded, .requestError c] ∧
    (requestRun reqOpts data (some f) (.error c :: rest)).st.settled
        = some (.failure (.transport c)) ∧
    Ev.socketObtained ∉ (requestRun reqOpts data (some f) (.error c :: rest)).st.trace ∧
    Ev.connectionEstablished ∉ (requestRun reqOpts data (some f) (.error c :: rest)).st.trace ∧
    Ev.responseStreamReceived ∉ (requestRun reqOpts data (some f) (.error c :: rest)).st.trace := by
  have hok : SinkOK (some f) := hf
  rw [requestRun_ok reqOpts data (some f) _ hok hv]
  simp only [Option.isSome_some, if_true, List.foldl_cons]
  have hstep : stepSig (isStreamBody data) (some f)
      { trace := [Ev.requestStreamInitialised, Ev.requestStreamEnded] } (.error c)
      = { trace := [Ev.requestStreamInitialised, Ev.requestStreamEnded,
            Ev.requestError c]
          errorDone := true, destroyed := true, destroyCause := some none
          settled := some (.failure (.transport c)) } := by
    simp [stepSig, onError, emit, hf, Option.orElse]
  rw [hstep]
  obtain ⟨t1, t2, _, _⟩ := foldl_destroyed_fields (isStreamBody data) (some f) rest
    { trace := [Ev.requestStreamInitialised, Ev.requestStreamEnded,
        Ev.requestError c]
      errorDone := true, destroyed := true, destroyCause := some none
      settled := some (.failure (.transport c)) } rfl
  rw [t1, t2]
  refine ⟨rfl, rfl, ?_, ?_, ?_⟩ <;> simp

/-- Witness for the amended C5 at a concrete input: a GET with no body
against an unresolvable host. -/
theorem claim_C5_amended_witness :
    (requestRun {} .absent (some fun _ => false) [.error "ENOTFOUND"]).st.trace
        = [.requestStreamInitialised, .requestStreamEnded, .requestError "ENOTFOUND"] ∧
    (requestRun {} .absent (some fun _ => false) [.error "ENOTFOUND"]).st.settled
        = some (.failure (.transport "ENOTFOUND")) := by
  have h := claim_C5_amended {} .absent (fun _ => false) "ENOTFOUND" []
    (fun _ => rfl) rfl
  exact ⟨h.1, h.2.1⟩

/-- Claim C6: for a Stream body whose source reports an error (before any
other terminal signal), the transport connection is destroyed with that
error as cause, the failure is published as the RequestFailed telemetry
event carrying the source error code, the Outcome fails with that code,
and the whole observable behaviour (events and settlement) is identical
to a transport-level error with the same code. -/
theorem claim_C6_stream_error (reqOpts : RequestOptions) (f : Ev → Bool)
    (c : String) (rest : List TSignal) (hf : ∀ e, f e = false) :
    (requestRun reqOpts .stream (some f) (.dataError c :: rest)).st.settled
        = some (.failure (.transport c)) ∧
    (requestRun reqOpts .stream (some f) (.dataError c :: rest)).st.destroyCause
        = some (some c) ∧
    (requestRun reqOpts .stream (some f) (.dataError c :: rest)).st.trace
        = [.requestStreamInitialised, .requestStreamEnded, .requestError c] ∧
    (requestRun reqOpts .stream (some f) (.dataError c :: rest)).st.trace
        = (requestRun reqOpts .stream (some f) (.error c :: rest)).st.trace ∧
    (requestRun reqOpts .stream (some f) (.dataError c :: rest)).st.settled
        = (requestRun reqOpts .stream (some f) (.error c :: rest)).st.settled := by
  have hok : SinkOK (some f) := hf
  have hv : (truthy Body.stream && !isConsumable Body.stream) = false := rfl
  rw [requestRun_ok reqOpts .stream (some f) _ hok hv,
      requestRun_ok reqOpts .stream (some f) _ hok hv]
  simp only [Option.isSome_some, if_true, List.foldl_cons]
  have hstep1 : stepSig (isStreamBody .stream) (some f)
      { trace := [Ev.requestStreamInitialised, Ev.requestStreamEnded] } (.dataError c)
      = { trace := [Ev.requestStreamInitialised, Ev.requestStreamEnded,
            Ev.requestError c]
          errorDone := true, dataErrDone := true, destroyed := true
          destroyCause := some (some c)
          settled := some (.failure (.transport c)) } := by
    simp [stepSig, onError, emit, hf, Option.orElse, isStreamBody]
  have hstep2 : stepSig (isStreamBody .stream) (some f)
      { trace := [Ev.requestStreamInitialised, Ev.requestStreamEnded] } (.error c)
      = { trace := [Ev.requestStreamInitialised, Ev.requestStreamEnded,
            Ev.requestError c]
          errorDone := true, destroyed := true, destroyCause := some none
          settled := some (.failure (.transport c)) } := by
    simp [stepSig, onError, emit, hf, Option.orElse]
  rw [hstep1, hstep2]
  obtain ⟨t1, t2, _, t4⟩ :=
    foldl_destroyed_fields (isStreamBody .stream) (some f) rest
      { trace := [Ev.requestStreamInitialised, Ev.requestStreamEnded,
          Ev.requestError c]
        errorDone := true, dataErrDone := true, destroyed := true
        destroyCause := some (some c)
        settled := some (.failure (.transport c)) } rfl
  obtain ⟨u1, u2, _, _⟩ :=
    foldl_destroyed_fields (isStreamBody .stream) (some f) rest
      { trace := [Ev.requestStreamInitialised, Ev.requestStreamEnded,
          Ev.requestError c]
        errorDone := true, destroyed := true, destroyCause := some none
        settled := some (.failure (.transport c)) } rfl
  rw [t1, t2, t4, u1, u2]
  exact ⟨rfl, rfl, rfl, rfl, rfl⟩

/-- Witness for C6 at a concrete input: a POST streaming from a missing
file, whose read fails with ENOENT. -/
theorem claim_C6_stream_error_witness :
    (requestRun {} .stream (some fun _ => false) [.dataError "ENOENT"]).st.settled
        = some (.failure (.transport "ENOENT")) ∧
    (requestRun {} .stream (some fun _ => false) [.dataError "ENOENT"]).st.destroyCause
        = some (some "ENOENT") := by
  have h := claim_C6_stream_error {} (fun _ => false) "ENOENT" [] (fun _ => rfl)
  exact ⟨h.1, h.2.1⟩

/-- Claim C3, evaluated at the failing input: for the one-character Text
body with code point U+00E9, the code derives content-length 1 (the JS
string length, counting UTF-16 code units) and merges exactly that number
into the headers, overwriting a caller-supplied content-length; but the
byte length of that body under the UTF-8 encoding the transport uses is 2,
so the derived header does not equal the byte length of the payload. -/
theorem claim_C3_code_evaluation :
    getContentLength (.text [0xE9]) = some 1 ∧
    utf8ByteLength [0xE9] = 2 ∧
    objGet ((applyContentLength (.text [0xE9])
        { headers := some [("content-length", .num 99)] }).headers.getD [])
        "content-length" = some (.num 1) ∧
    getContentLength (.text [0xE9]) ≠ some (utf8ByteLength [0xE9]) := by
  decide

/-- Counterexample to claim C4 as stated: the number 0 is a body value
outside the four recognized variants, yet, being falsy, it slips past the
guard (which tests truthiness first): the call does not fail with
InvalidBodyType, a connection is opened, and telemetry is emitted. -/
theorem claim_C4_counterexample :
    (requestRun {} (.invalid false) (some fun _ => false) []).st.settled = none ∧
    (requestRun {} (.invalid false) (some fun _ => false) []).opened = true ∧
    (requestRun {} (.invalid false) (some fun _ => false) []).st.trace
        = [.requestStreamInitialised, .requestStreamEnded] := by
  decide

/-- Claim C4 as amended: for every truthy body value that is not one of
the recognized BodySource variants, request fails synchronously with the
InvalidBodyType error, no connection is opened, and no telemetry event is
emitted (falsy unrecognized values such as 0, false or null bypass the
check). -/
theorem claim_C4_amended (reqOpts : RequestOptions) (data : Body) (sink : Sink)
    (sigs : List TSignal) (ht : truthy data = true)
    (hc : isConsumable data = false) :
    (requestRun reqOpts data sink sigs).st.settled
        = some (.failure .invalidBodyType) ∧
    (requestRun reqOpts data sink sigs).opened = false ∧
    (requestRun reqOpts data sink sigs).threw = false ∧
    (requestRun reqOpts data sink sigs).st.trace = [] := by
  simp [requestRun, ht, hc]

/-- Witness for the amended C4 at a concrete input: a truthy unrecognized
body value. -/
theorem claim_C4_amended_witness :
    (requestRun {} (.invalid true) none []).st.settled
        = some (.failure .invalidBodyType) ∧
    (requestRun {} (.invalid true) none []).opened = false ∧
    (requestRun {} (.invalid true) none []).threw = false ∧
    (requestRun {} (.invalid true) none []).st.trace = [] :=
  claim_C4_amended {} (.invalid true) none [] rfl rfl

/-- Claim C8: for a Stream body and for the absent-body case, no
content-length is derived and the options, in particular any
caller-supplied content-length header, are left untouched. -/
theorem claim_C8_no_content_length (reqOpts : RequestOptions) :
    getContentLength .stream = none ∧
    getContentLength .absent = none ∧
    applyContentLength .stream reqOpts = reqOpts ∧
    applyContentLength .absent reqOpts = reqOpts :=
  ⟨rfl, rfl, rfl, rfl⟩

/-- Claim C9: every verb wrapper fixes its method through to the effective
options of the forwarded request; option merging is base defaults then
per-call overrides (a per-call field wins exactly when present) then the
orchestrator-derived content-length, which overrides any caller-supplied
content-length header. -/
theorem claim_C9_option_precedence (c : HttpClient) (percall : Option RequestOptions)
    (m : Method) (data : Body) (n : Nat) :
    (combineOpts c.baseReqOpts m percall).method = some m ∧
    (∀ h, (percall.getD {}).headers = some h →
      (combineOpts c.baseReqOpts m percall).headers = some h) ∧
    ((percall.getD {}).headers = none →
      (combineOpts c.baseReqOpts m percall).headers = (c.baseReqOpts.getD {}).headers) ∧
    (∀ v, (percall.getD {}).timeout = some v →
      (combineOpts c.baseReqOpts m percall).timeout = some v) ∧
    ((percall.getD {}).timeout = none →
      (combineOpts c.baseReqOpts m percall).timeout = (c.baseReqOpts.getD {}).timeout) ∧
    (getContentLength data = some n →
      objGet ((applyContentLength data (combineOpts c.baseReqOpts m percall)).headers.getD [])
        "content-length" = some (.num n)) ∧
    (∀ ro sink sigs, ((c.getRun ro sink sigs).finalOpts).method = some .Get) ∧
    (∀ ro d sink sigs, ((c.postRun ro d sink sigs).finalOpts).method = some .Post) ∧
    (∀ ro sink sigs, ((c.deleteRun ro sink sigs).finalOpts).method = some .Delete) := by
  refine ⟨rfl, ?_, ?_, ?_, ?_, ?_, ?_, ?_, ?_⟩
  · intro h hh; simp [combineOpts, hh, Option.orElse]
  · intro hh; simp [combineOpts, hh, Option.orElse]
  · intro v hv; simp [combineOpts, hv, Option.orElse]
  · intro hv; simp [combineOpts, hv, Option.orElse]
  · intro hn
    unfold applyContentLength
    rw [hn]
    simp [objGet_objSet]
  · intro ro sink sigs
    rw [HttpClient.getRun, requestRun_finalOpts]
    split <;> simp [applyContentLength_method, combineOpts]
  · intro ro d sink sigs
    rw [HttpClient.postRun, requestRun_finalOpts]
    split <;> simp [applyContentLength_method, combineOpts]
  · intro ro sink sigs
    rw [HttpClient.deleteRun, requestRun_finalOpts]
    split <;> simp [applyContentLength_method, combineOpts]

/-- Witness for C9 at a concrete input: a post with a three-byte Buffer
body, a base timeout, per-call headers carrying a stale content-length. -/
theorem claim_C9_option_precedence_witness :
    (combineOpts (some { timeout := some 7 }) .Post
        (some { headers := some [("content-length", .str "99")] })).method
      = some .Post ∧
    objGet ((applyContentLength (.bytes [1, 2, 3])
        (combineOpts (some { timeout := some 7 }) .Post
          (some { headers := some [("content-length", .str "99")] }))).headers.getD [])
        "content-length" = some (.num 3) := by
  have h := claim_C9_option_precedence
    ⟨⟨"http://h/", "http:"⟩, some { timeout := some 7 }⟩
    (some { headers := some [("content-length", .str "99")] })
    .Post (.bytes [1, 2, 3]) 3
  exact ⟨h.1, h.2.2.2.2.2.1 rfl⟩

/-- Claim C10: constructing a client with a base URL whose protocol is not
http: throws synchronously and produces no instance; with protocol http:
construction succeeds and stores the base URL and the base request options
unchanged. -/
theorem claim_C10_constructor (u : URLString) (o : Option RequestOptions) :
    (u.protocol ≠ "http:" → ∃ msg, HttpClient.make u o = .error msg) ∧
    (u.protocol = "http:" →
      HttpClient.make u o = .ok { baseUrl := u, baseReqOpts := o }) := by
  constructor
  · intro h
    refine ⟨"only http protocol is supported, got " ++ u.protocol, ?_⟩
    simp [HttpClient.make, h]
  · intro h
    simp [HttpClient.make, h]

/-- Witness for C10 at concrete inputs: an https base URL is rejected, an
http one is stored as given. -/
theorem claim_C10_constructor_witness :
    (∃ msg, HttpClient.make ⟨"https://example.com/", "https:"⟩ none = .error msg) ∧
    HttpClient.make ⟨"http://example.com/", "http:"⟩ (some { timeout := some 5 })
      = .ok { baseUrl := ⟨"http://example.com/", "http:"⟩
              baseReqOpts := some { timeout := some 5 } } :=
  ⟨(claim_C10_constructor ⟨"https://example.com/", "https:"⟩ none).1 (by decide),
   (claim_C10_constructor ⟨"http://example.com/", "http:"⟩
      (some { timeout := some 5 })).2 rfl⟩

theorem stepSig_socket_eq (b : Bool) (f : Ev → Bool) (hf : ∀ e, f e = false)
    (s : St) (h2 : s.destroyed = false) (h3 : s.socketDone = false) :
    stepSig b (some f) s .socket =
      { s with socketDone := true, connectAttached := true
               trace := s.trace ++ [.socketObtained] } := by
  obtain ⟨tr, sd, ca, cd, rd, ed, dd, ds, dc, se⟩ := s
  replace h2 : ds = false := h2
  replace h3 : sd = false := h3
  subst h2; subst h3
  simp [stepSig, onSocket, emit, hf]

theorem stepSig_connect_eq (b : Bool) (f : Ev → Bool) (hf : ∀ e, f e = false)
    (s : St) (h2 : s.destroyed = false) (h3 : s.connectAttached = true) :
    stepSig b (some f) s .connect =
      { s with connectDone := true, connectAttached := false
               trace := s.trace ++ [.connectionEstablished] } := by
  obtain ⟨tr, sd, ca, cd, rd, ed, dd, ds, dc, se⟩ := s
  replace h2 : ds = false := h2
  replace h3 : ca = true := h3
  subst h2; subst h3
  simp [stepSig, onConnect, emit, hf]

theorem stepSig_response_eq (b : Bool) (f : Ev → Bool) (hf : ∀ e, f e = false)
    (s : St) (r : Nat) (h2 : s.destroyed = false) (h3 : s.responseDone = false) :
    stepSig b (some f) s (.response r) =
      { s with responseDone := true
               trace := s.trace ++ [.responseStreamReceived]
               settled := s.settled.orElse fun _ => some (.success r) } := by
  obtain ⟨tr, sd, ca, cd, rd, ed, dd, ds, dc, se⟩ := s
  replace h2 : ds = false := h2
  replace h3 : rd = false := h3
  subst h2; subst h3
  simp [stepSig, onResponse, emit, hf]

theorem stepSig_error_eq (b : Bool) (f : Ev → Bool) (hf : ∀ e, f e = false)
    (s : St) (c : String) (h2 : s.destroyed = false) (h3 : s.errorDone = false) :
    stepSig b (some f) s (.error c) =
      { s with errorDone := true, destroyed := true
               destroyCause := s.destroyCause.orElse fun _ => some none
               trace := s.trace ++ [.requestError c]
               settled := s.settled.orElse fun _ => some (.failure (.transport c)) } := by
  obtain ⟨tr, sd, ca, cd, rd, ed, dd, ds, dc, se⟩ := s
  replace h2 : ds = false := h2
  replace h3 : ed = false := h3
  subst h2; subst h3
  simp [stepSig, onError, emit, hf]

theorem stepSig_dataError_eq (f : Ev → Bool) (hf : ∀ e, f e = false)
    (s : St) (c : String) (h2 : s.destroyed = false) (h3 : s.errorDone = false)
    (h4 : s.dataErrDone = false) :
    stepSig true (some f) s (.dataError c) =
      { s with dataErrDone := true, errorDone := true, destroyed := true
               destroyCause := some (some c)
               trace := s.trace ++ [.requestError c]
               settled := s.settled.orElse fun _ => some (.failure (.transport c)) } := by
  obtain ⟨tr, sd, ca, cd, rd, ed, dd, ds, dc, se⟩ := s
  replace h2 : ds = false := h2
  replace h3 : ed = false := h3
  replace h4 : dd = false := h4
  subst h2; subst h3; subst h4
  simp [stepSig, onError, emit, hf, Option.orElse]

theorem stepSig_dataError_nonstream (sk : Sink) (s : St) (c : String) :
    stepSig false sk s (.dataError c) = s := by
  obtain ⟨tr, sd, ca, cd, rd, ed, dd, ds, dc, se⟩ := s
  cases ds <;> simp [stepSig]

theorem fold_inv (b : Bool) (f : Ev → Bool) (hf : ∀ e, f e = false) (pre : List Ev) :
    ∀ (sigs : List TSignal) (st : Nat) (er de : Bool) (s : St),
      wfFrom st er de sigs = true →
      (InvA pre st s ∨ InvB pre s) →
      ∃ st2, InvA pre st2 (sigs.foldl (stepSig b (some f)) s) ∨
        InvB pre (sigs.foldl (stepSig b (some f)) s) := by
  intro sigs
  induction sigs with
  | nil => intro st er de s _ hinv; exact ⟨st, hinv⟩
  | cons sig rest ih =>
    intro st er de s hwf hinv
    rw [List.foldl_cons]
    rcases hinv with hA | hB
    · obtain ⟨hst3, htr, hsd, hca, hcd, hrd, hed, hds, hdd⟩ := hA
      cases sig with
      | socket =>
        simp only [wfFrom, Bool.and_eq_true, beq_iff_eq] at hwf
        obtain ⟨hst0, hrest⟩ := hwf
        subst hst0
        rw [stepSig_socket_eq b f hf s hds (by rw [hsd]; decide)]
        refine ih 1 er de _ hrest (Or.inl ?_)
        refine ⟨by norm_num, ?_, by simp, by simp, ?_, ?_, ?_, ?_, ?_⟩
        · simp only [St.trace]
          rw [htr]
          simp [specStageTrace]
        · simp only [St.connectDone]
          rw [hcd]; decide
        · simp only [St.responseDone]
          rw [hrd]; decide
        · simpa using hed
        · simpa using hds
        · simpa using hdd
      | connect =>
        simp only [wfFrom, Bool.and_eq_true, beq_iff_eq] at hwf
        obtain ⟨hst1, hrest⟩ := hwf
        subst hst1
        rw [stepSig_connect_eq b f hf s hds (by rw [hca]; decide)]
        refine ih 2 er de _ hrest (Or.inl ?_)
        refine ⟨by norm_num, ?_, ?_, by simp, by simp, ?_, ?_, ?_, ?_⟩
        · simp only [St.trace]
          rw [htr]
          simp [specStageTrace]
        · simp only [St.socketDone]
          rw [hsd]; decide
        · simp only [St.responseDone]
          rw [hrd]; decide
        · simpa using hed
        · simpa using hds
        · simpa using hdd
      | response r =>
        simp only [wfFrom, Bool.and_eq_true, beq_iff_eq] at hwf
        obtain ⟨hst2, hrest⟩ := hwf
        subst hst2
        rw [stepSig_response_eq b f hf s r hds (by rw [hrd]; decide)]
        refine ih 3 er de _ hrest (Or.inl ?_)
        refine ⟨by norm_num, ?_, ?_, ?_, ?_, by simp, ?_, ?_, ?_⟩
        · simp only [St.trace]
          rw [htr]
          simp [specStageTrace]
        · simp only [St.socketDone]
          rw [hsd]; decide
        · simp only [St.connectAttached]
          rw [hca]; decide
        · simp only [St.connectDone]
          rw [hcd]; decide
        · simpa using hed
        · simpa using hds
        · simpa using hdd
      | error c =>
        simp only [wfFrom, Bool.and_eq_true, Bool.not_eq_true'] at hwf
        obtain ⟨her, hrest⟩ := hwf
        rw [stepSig_error_eq b f hf s c hds hed]
        refine ih st true de _ hrest (Or.inr ⟨st, c, hst3, ?_, by simp⟩)
        simp only [St.trace]
        rw [htr]
      | dataError c =>
        simp only [wfFrom, Bool.and_eq_true, Bool.not_eq_true'] at hwf
        obtain ⟨hde, hrest⟩ := hwf
        cases b with
        | false =>
          rw [stepSig_dataError_nonstream (some f) s c]
          exact ih st er true s hrest
            (Or.inl ⟨hst3, htr, hsd, hca, hcd, hrd, hed, hds, hdd⟩)
        | true =>
          rw [stepSig_dataError_eq f hf s c hds hed hdd]
          refine ih st er true _ hrest (Or.inr ⟨st, c, hst3, ?_, by simp⟩)
          simp only [St.trace]
          rw [htr]
    · obtain ⟨st', code, hst', htr', hds'⟩ := hB
      obtain ⟨e1, _, e3, _⟩ := stepSig_destroyed_fields b (some f) s sig hds'
      have hB' : InvB pre (stepSig b (some f) s sig) :=
        ⟨st', code, hst', e1.trans htr', e3⟩
      cases sig with
      | socket =>
        simp only [wfFrom, Bool.and_eq_true, beq_iff_eq] at hwf
        exact ih 1 er de _ hwf.2 (Or.inr hB')
      | connect =>
        simp only [wfFrom, Bool.and_eq_true, beq_iff_eq] at hwf
        exact ih 2 er de _ hwf.2 (Or.inr hB')
      | response r =>
        simp only [wfFrom, Bool.and_eq_true, beq_iff_eq] at hwf
        exact ih 3 er de _ hwf.2 (Or.inr hB')
      | error c =>
        simp only [wfFrom, Bool.and_eq_true, Bool.not_eq_true'] at hwf
        exact ih st true de _ hwf.2 (Or.inr hB')
      | dataError c =>
        simp only [wfFrom, Bool.and_eq_true, Bool.not_eq_true'] at hwf
        exact ih st er true _ hwf.2 (Or.inr hB')

/-- Counterexample to claim C2 as stated: the body hand-off event
(RequestStreamEnded, the BodyTransmissionCompleted of the spec) is
published synchronously before any transport signal, so in a successful
run it appears before SocketObtained, not between ConnectionEstablished
and ResponseReceived as the claimed stage order requires; and a failure
arriving before any stage signal does not suppress it. -/
theorem claim_C2_counterexample :
    (requestRun {} .absent (some fun _ => false)
        [.socket, .connect, .response 7]).st.trace
      = [.requestStreamInitialised, .requestStreamEnded, .socketObtained,
         .connectionEstablished, .responseStreamReceived] ∧
    (requestRun {} .absent (some fun _ => false) [.error "EAI_AGAIN"]).st.trace
      = [.requestStreamInitialised, .requestStreamEnded,
         .requestError "EAI_AGAIN"] ∧
    Ev.requestStreamEnded ∈
      (requestRun {} .absent (some fun _ => false) [.error "EAI_AGAIN"]).st.trace := by
  decide

/-- Claim C2 as amended: for every request with a well-formed transport
signal sequence, the published events are RequestInitiated then
BodyTransmissionCompleted (both always, synchronously, before any
transport signal), then the stage events SocketObtained,
ConnectionEstablished, ResponseReceived as a prefix in stage order, with
RequestFailed, if it occurs, strictly last; hence each kind is published
at most once, the three transport-stage kinds only if their stage is
reached, no stage event ever follows RequestFailed, and a failure
suppresses exactly the stage events not yet reached. -/
theorem claim_C2_amended (reqOpts : RequestOptions) (data : Body)
    (f : Ev → Bool) (sigs : List TSignal) (hf : ∀ e, f e = false)
    (hv : (truthy data && !isConsumable data) = false)
    (hwf : wfSignals sigs = true) :
    ∃ st2, st2 ≤ 3 ∧
      ((requestRun reqOpts data (some f) sigs).st.trace
          = [Ev.requestStreamInitialised, Ev.requestStreamEnded]
            ++ specStageTrace st2
       ∨ ∃ code, (requestRun reqOpts data (some f) sigs).st.trace
          = [Ev.requestStreamInitialised, Ev.requestStreamEnded]
            ++ specStageTrace st2 ++ [Ev.requestError code]) := by
  have hok : SinkOK (some f) := hf
  rw [requestRun_ok reqOpts data (some f) sigs hok hv]
  simp only [Option.isSome_some, if_true]
  have h0 : InvA [Ev.requestStreamInitialised, Ev.requestStreamEnded] 0
      { trace := [Ev.requestStreamInitialised, Ev.requestStreamEnded] } := by
    exact ⟨by norm_num, by simp [specStageTrace], rfl, rfl, rfl, rfl, rfl, rfl, rfl⟩
  obtain ⟨st2, hfin⟩ := fold_inv (isStreamBody data) f hf
    [Ev.requestStreamInitialised, Ev.requestStreamEnded] sigs 0 false false _
    hwf (Or.inl h0)
  rcases hfin with hA | hB
  · exact ⟨st2, hA.1, Or.inl hA.2.1⟩
  · obtain ⟨st', code, hst', htr', _⟩ := hB
    exact ⟨st', hst', Or.inr ⟨code, htr'⟩⟩

/-- Witness for the amended C2 at a concrete input: a request whose socket
is assigned and which then fails (the shape of the repository's own
connection-error test). -/
theorem claim_C2_amended_witness :
    ∃ st2, st2 ≤ 3 ∧
      ((requestRun {} .absent (some fun _ => false)
          [.socket, .error "ENOTFOUND"]).st.trace
          = [Ev.requestStreamInitialised, Ev.requestStreamEnded]
            ++ specStageTrace st2
       ∨ ∃ code, (requestRun {} .absent (some fun _ => false)
          [.socket, .error "ENOTFOUND"]).st.trace
          = [Ev.requestStreamInitialised, Ev.requestStreamEnded]
            ++ specStageTrace st2 ++ [Ev.requestError code]) :=
  claim_C2_amended {} .absent (fun _ => false) [.socket, .error "ENOTFOUND"]
    (fun _ => rfl) rfl rfl

theorem stepSig_eraseTr (b : Bool) (f : Ev → Bool) (hf : ∀ e, f e = false)
    (sig : TSignal) (s t : St) (h : eraseTr s = eraseTr t) :
    eraseTr (stepSig b (some f) s sig) = eraseTr (stepSig b none t sig) := by
  obtain ⟨tr1, sd1, ca1, cd1, rd1, ed1, dd1, ds1, dc1, se1⟩ := s
  obtain ⟨tr2, sd2, ca2, cd2, rd2, ed2, dd2, ds2, dc2, se2⟩ := t
  simp only [eraseTr, St.mk.injEq, true_and] at h
  obtain ⟨h2, h3, h4, h5, h6, h7, h8, h9, h10⟩ := h
  subst h2; subst h3; subst h4; subst h5; subst h6; subst h7; subst h8
  subst h9; subst h10
  cases sig <;>
    simp only [stepSig, onSocket, onConnect, onResponse, onError, emit, hf,
      Bool.not_false, eraseTr] <;>
    (repeat' split) <;>
    simp_all

theorem foldl_eraseTr (b : Bool) (f : Ev → Bool) (hf : ∀ e, f e = false) :
    ∀ (sigs : List TSignal) (s t : St), eraseTr s = eraseTr t →
      eraseTr (sigs.foldl (stepSig b (some f)) s)
        = eraseTr (sigs.foldl (stepSig b none) t) := by
  intro sigs
  induction sigs with
  | nil => intro s t h; exact h
  | cons sig rest ih =>
    intro s t h
    rw [List.foldl_cons, List.foldl_cons]
    exact ih _ _ (stepSig_eraseTr b f hf sig s t h)

theorem settled_of_eraseTr_eq {a b : St} (h : eraseTr a = eraseTr b) :
    a.settled = b.settled := by
  have h2 : (eraseTr a).settled = (eraseTr b).settled := congrArg St.settled h
  simpa [eraseTr] using h2

/-- Counterexample to claim C7 as stated: a telemetry sink that throws on
the first event makes request itself throw, and the Outcome never
settles, whereas with the sink absent the same call settles successfully;
telemetry emission is not defensive, so a sink failure does affect the
Outcome and the control flow. -/
theorem claim_C7_counterexample :
    (requestRun {} .absent
        (some fun e => decide (e = Ev.requestStreamInitialised))
        [.response 7]).threw = true ∧
    (requestRun {} .absent
        (some fun e => decide (e = Ev.requestStreamInitialised))
        [.response 7]).st.settled = none ∧
    (requestRun {} .absent none [.response 7]).threw = false ∧
    (requestRun {} .absent none [.response 7]).st.settled = some (.success 7) := by
  decide

/-- Claim C7 as amended: a telemetry sink that does not throw never
affects the Outcome or the control flow: the call does not throw and the
Outcome settles to exactly the same value as with no sink at all.  (A
throwing sink, by contrast, propagates its exception into the request
path, as the counterexample shows.) -/
theorem claim_C7_amended (reqOpts : RequestOptions) (data : Body)
    (sigs : List TSignal) (f : Ev → Bool) (hf : ∀ e, f e = false) :
    (requestRun reqOpts data (some f) sigs).st.settled
      = (requestRun reqOpts data none sigs).st.settled ∧
    (requestRun reqOpts data (some f) sigs).threw = false ∧
    (requestRun reqOpts data none sigs).threw = false := by
  by_cases hv : (truthy data && !isConsumable data) = true
  · simp [requestRun, hv]
  · have hv' : (truthy data && !isConsumable data) = false :=
      Bool.eq_false_iff.mpr hv
    have hok : SinkOK (some f) := hf
    have hokn : SinkOK (none : Sink) := trivial
    rw [requestRun_ok reqOpts data (some f) sigs hok hv',
        requestRun_ok reqOpts data none sigs hokn hv']
    refine ⟨?_, rfl, rfl⟩
    have h := foldl_eraseTr (isStreamBody data) f hf sigs
      { trace := if (some f).isSome
          then [Ev.requestStreamInitialised, Ev.requestStreamEnded] else [] }
      { trace := if (none : Sink).isSome
          then [Ev.requestStreamInitialised, Ev.requestStreamEnded] else [] }
      rfl
    exact settled_of_eraseTr_eq h

/-- Witness for the amended C7 at a concrete input: a well-behaved sink
and the absent sink settle a successful GET identically. -/
theorem claim_C7_amended_witness :
    (requestRun {} .absent (some fun _ => false)
        [.socket, .connect, .response 9]).st.settled
      = (requestRun {} .absent none [.socket, .connect, .response 9]).st.settled ∧
    (requestRun {} .absent (some fun _ => false)
        [.socket, .connect, .response 9]).threw = false ∧
    (requestRun {} .absent none [.socket, .connect, .response 9]).threw = false :=
  claim_C7_amended {} .absent [.socket, .connect, .response 9] (fun _ => false)
    (fun _ => rfl)
